import Mathlib

/-
Verification of the NFC_Player repository (src/nfc_player.py) against its
natural-language specification.  The Python program is shallowly embedded:
the sqlite-backed `Database` class becomes a list of rows in insertion
(rowid) order, the stateful `VLC` wrapper becomes pure functions over a
poll oracle describing the engine state trajectory, and the two controller
callbacks (`read_and_play`, `read_and_assign`) become pure state
transformers / event-trace producers.
-/

set_option autoImplicit false

/-- Model of Python `str.isspace()` restricted to the ASCII whitespace the
program ever meets: true iff the string is non-empty and every character is
whitespace. -/
def pyIsSpace (s : String) : Bool :=
  0 < s.length && s.data.all (fun c => c.isWhitespace)

/-- Model of the Python truthiness test `bool(s and not s.isspace())` used by
`Database.create_entry` (src/nfc_player.py line 126): a field is valid iff it
is non-empty and not whitespace-only. -/
def validField (s : String) : Bool :=
  !(s == "") && !(pyIsSpace s)

/-- Split a character list on the slash character keeping empty components,
exactly like Python `path.split(sep)` on the list of characters. -/
def splitSlash : List Char → List (List Char)
  | [] => [[]]
  | c :: cs =>
    if c = '/' then [] :: splitSlash cs
    else
      match splitSlash cs with
      | [] => [[c]]
      | p :: ps => (c :: p) :: ps

/-- Join path components with a slash, like `sep.join(comps)` in Python. -/
def joinSlash : List (List Char) → List Char
  | [] => []
  | [p] => p
  | p :: ps => p ++ '/' :: joinSlash ps

/-- One folding step of CPython `posixpath.normpath`: skip empty and dot
components, append ordinary components (and a dot-dot component when it
cannot be cancelled), otherwise pop the last accumulated component. -/
def normStep (slashes : Nat) (acc : List (List Char)) (comp : List Char) : List (List Char) :=
  if comp = [] ∨ comp = ['.'] then acc
  else if comp ≠ ['.', '.'] ∨ (slashes = 0 ∧ acc = []) ∨ (acc ≠ [] ∧ acc.getLast? = some ['.', '.']) then
    acc ++ [comp]
  else if acc ≠ [] then acc.dropLast
  else acc

/-- Number of leading slashes CPython `posixpath.normpath` preserves: one for
a single (or three or more) leading slash, two for exactly two. -/
def initialSlashCount : List Char → Nat
  | '/' :: '/' :: '/' :: _ => 1
  | '/' :: '/' :: _ => 2
  | '/' :: _ => 1
  | _ => 0

/-- CPython `posixpath.normpath` on a list of characters. -/
def normpathChars (cs : List Char) : List Char :=
  if cs = [] then ['.']
  else
    let slashes := initialSlashCount cs
    let comps := (splitSlash cs).foldl (normStep slashes) []
    let out := List.replicate slashes '/' ++ joinSlash comps
    if out = [] then ['.'] else out

/-- Model of `os.path.normpath` (POSIX variant), which `Database.get_path`
(src/nfc_player.py line 115) applies to every looked-up path before
returning it. -/
def posixNormpath (path : String) : String :=
  String.mk (normpathChars path.data)

/-- A row of the `music(UUID, path)` table created in `Database.__init__`
(line 100).  The table has no primary key and no uniqueness constraint. -/
structure MusicRow where
  uuid : String
  path : String
deriving Repr, DecidableEq

/-- The persistent registry state: the `music` table as a list of rows in
insertion (rowid) order.  `fetchone` on an unordered `SELECT` returns the
first row in this order. -/
structure Database where
  music : List MusicRow
deriving Repr, DecidableEq

/-- The error kinds the specification names for the registry
(`NotFound`, `InvalidEntry`).  The Python code declares matching exception
classes (`NoPathException`, `BadEntryException`) but `create_entry` never
raises one: its return value is `None` on every path, which we model as
`Option DBError` with value `none`. -/
inductive DBError where
  | NotFound
  | InvalidEntry
deriving Repr, DecidableEq

/-- Model of `Database.get_path` (lines 106-117): `None` argument gives
`None`; otherwise the first row whose uuid matches is returned with its path
normalized by `os.path.normpath`; no row gives `None`. -/
def Database.get_path (db : Database) (uuid : Option String) : Option String :=
  match uuid with
  | none => none
  | some u =>
    match db.music.find? (fun r => r.uuid == u) with
    | none => none
    | some r => some (posixNormpath r.path)

/-- Model of `Database.create_entry` (lines 124-133): if either field is
empty or whitespace-only the function logs and returns (`None`) without
touching the table; otherwise it unconditionally INSERTs a new row (no
existence check) and commits.  The Python return value is `None` on both
paths, modelled as the second component so the specified `InvalidEntry`
error kind is expressible. -/
def Database.create_entry (db : Database) (uuid path : String) : Database × Option DBError :=
  if validField uuid = false ∨ validField path = false then
    (db, none)
  else
    (⟨db.music ++ [⟨uuid, path⟩]⟩, none)

/-- Model of `Database.remove_entry` (lines 135-138): `DELETE FROM music
WHERE uuid=:uuid` removes every row with that uuid and commits. -/
def Database.remove_entry (db : Database) (uuid : String) : Database :=
  ⟨db.music.filter (fun r => !(r.uuid == uuid))⟩

/-- Number of rows of the `music` table carrying the given identifier. -/
def rowCount (u : String) (db : Database) : Nat :=
  (db.music.filter (fun r => r.uuid == u)).length

/-- Whether some row of the `music` table carries the given identifier. -/
def hasRow (u : String) (db : Database) : Bool :=
  db.music.any (fun r => r.uuid == u)

/-- The engine states `MediaListPlayer.get_state()` can report
(python-vlc `vlc.State`, the values the program matches on). -/
inductive VLCState where
  | NothingSpecial
  | Opening
  | Buffering
  | Playing
  | Paused
  | Stopped
  | Ended
  | Error
deriving Repr, DecidableEq

/-- The observable engine commands the `VLC` wrapper issues. -/
inductive EngineCmd where
  | listPlay
  | listPause
  | listStop
  | playerStop
deriving Repr, DecidableEq

/-- The log/print messages of the `VLC` wrapper methods, as abstract tokens. -/
inductive LogMsg where
  | playing
  | failedToPlay
  | noMediaInPlaylist
  | paused
  | failedToPause
  | stopped
  | failedToStop
deriving Repr, DecidableEq

/-- Observable outcome of one `VLC.play` / `VLC.pause` / `VLC.stop` call:
the engine commands issued in order, the messages logged, and whether an
exception escaped to the caller (the bare `except:` in each method catches
everything, so this is `false` on every path of the source). -/
structure PlayResult where
  cmds : List EngineCmd
  logs : List LogMsg
  raised : Bool
deriving Repr, DecidableEq

/-- The retry loop of `VLC.__action_timeout` (src/nfc_player.py lines
154-160), with time measured in half-units so the Python `wait += 0.5` step
becomes `wait + 1` and the 3 time-unit ceiling becomes 6.  `states k` is the
engine state observed by the k-th `get_state()` poll of the loop guard,
after `k` issues of the action; `fuel` is the number of loop iterations the
`wait < timeout` guard still allows, so the invariant `wait + fuel =
timeoutHalf` holds at every call.  Returns the final value of `wait`, which
equals the number of times the action was issued. -/
def actionTimeoutGo (states : Nat → VLCState) (desired : VLCState) : Nat → Nat → Nat
  | wait, 0 => wait
  | wait, fuel + 1 =>
    if states wait = desired then wait
    else actionTimeoutGo states desired (wait + 1) fuel

/-- Model of `VLC.__action_timeout` (lines 154-167): run the retry loop,
then raise iff `wait >= timeout` (line 161).  Returns the number of times
the action was issued and whether the timeout exception was raised. -/
def actionTimeout (states : Nat → VLCState) (desired : VLCState) (timeoutHalf : Nat) : Nat × Bool :=
  let w := actionTimeoutGo states desired 0 timeoutHalf
  (w, decide (timeoutHalf ≤ w))

/-- The 3 time-unit retry ceiling passed by `play`, `pause` and `stop`,
in 0.5 time-unit polls. -/
def timeoutHalfUnits : Nat := 6

/-- Model of `VLC.play` (lines 184-194): if the media list is non-empty,
retry `MediaListPlayer.play` towards `Playing`; on the timeout exception log
a warning and hard-stop the `MediaPlayer`; with an empty list just log.  No
exception ever escapes. -/
def VLC.play (mediaList : List String) (states : Nat → VLCState) : PlayResult :=
  if 0 < mediaList.length then
    let r := actionTimeout states VLCState.Playing timeoutHalfUnits
    if r.2 then
      ⟨List.replicate r.1 EngineCmd.listPlay ++ [EngineCmd.playerStop], [LogMsg.failedToPlay], false⟩
    else
      ⟨List.replicate r.1 EngineCmd.listPlay, [LogMsg.playing], false⟩
  else
    ⟨[], [LogMsg.noMediaInPlaylist], false⟩

/-- Model of `VLC.pause` (lines 196-203): only acts when the guard poll
reports `Playing`; then retries `MediaListPlayer.pause` towards `Paused`,
hard-stopping the `MediaPlayer` on timeout.  `guardState` is the state
returned by the guard's own `get_state()` call. -/
def VLC.pause (guardState : VLCState) (states : Nat → VLCState) : PlayResult :=
  if guardState = VLCState.Playing then
    let r := actionTimeout states VLCState.Paused timeoutHalfUnits
    if r.2 then
      ⟨List.replicate r.1 EngineCmd.listPause ++ [EngineCmd.playerStop], [LogMsg.failedToPause], false⟩
    else
      ⟨List.replicate r.1 EngineCmd.listPause, [LogMsg.paused], false⟩
  else
    ⟨[], [], false⟩

/-- Model of `VLC.stop` (lines 205-212): the `MediaListPlayer` exists for
the whole process lifetime, so the `is not None` guard is always true;
retries `MediaListPlayer.stop` towards `Stopped`, hard-stopping the
`MediaPlayer` on timeout. -/
def VLC.stop (states : Nat → VLCState) : PlayResult :=
  let r := actionTimeout states VLCState.Stopped timeoutHalfUnits
  if r.2 then
    ⟨List.replicate r.1 EngineCmd.listStop ++ [EngineCmd.playerStop], [LogMsg.failedToStop], false⟩
  else
    ⟨List.replicate r.1 EngineCmd.listStop, [LogMsg.stopped], false⟩

/-- Model of `VLC.clear_playlist` (lines 169-171): stop the player and
replace the media list with a fresh empty one. -/
def clear_playlist (_mediaList : List String) : List String :=
  []

/-- Model of `VLC.add_track_mrls` (lines 173-182): clear the playlist, then
iterate over the argument adding one media entry per element, in order. -/
def add_track_mrls (mediaList : List String) (track_list : List String) : List String :=
  track_list.foldl (fun acc t => acc ++ [t]) (clear_playlist mediaList)

/-- Python iteration over a string: yields each character as a
one-character string, which is what `add_track_mrls` receives per step when
its `track_list` argument is a bare path string. -/
def pyStrIter (s : String) : List String :=
  s.data.map (fun c => String.mk [c])

/-- Model of `NFCPlayer.add_media_to_playlist` (lines 542-552) over an
abstract filesystem: when the media path is a single file the bare string
is passed to `add_track_mrls`, which iterates over it character by
character; otherwise the sorted directory listing is joined to the
directory, filtered by the audio classifier, and loaded.  `listDir` stands
for `sorted(os.listdir(d))` and `isAudio` for `is_audio_track` on the
joined path. -/
def add_media_to_playlist (isFile : String → Bool) (listDir : String → List String)
    (isAudio : String → Bool) (mediaList : List String) (directory : String) : List String :=
  if isFile directory then
    add_track_mrls mediaList (pyStrIter directory)
  else
    add_track_mrls mediaList (((listDir directory).map (fun n => directory ++ "/" ++ n)).filter isAudio)

/-- Result of one standby-mode tag connection handled by
`NFCPlayer.read_and_play` (src/nfc_player.py lines 421-442): the value of
`prev_uuid` after the call, whether the playlist was rebuilt
(`add_media_to_playlist` was invoked), and whether `VLC.play()` was
issued.  The initial Python `prev_uuid = -1` sentinel, never equal to any
identifier string, is modelled as `none`. -/
structure ReadPlayResult where
  prev_uuid : Option String
  rebuilt : Bool
  playIssued : Bool
deriving Repr, DecidableEq

/-- Model of `NFCPlayer.read_and_play`: `tagUuid` is the identifier decoded
from the attached tag by `get_uuid_from_tag` (`none` when the tag carries no
decodable record).  An empty tag or an unregistered identifier returns
after printing, leaving `prev_uuid` alone and issuing nothing; otherwise
the playlist is rebuilt exactly when the identifier differs from
`prev_uuid`, `prev_uuid` is updated, and `play()` is issued. -/
def read_and_play (db : Database) (prev : Option String) (tagUuid : Option String) : ReadPlayResult :=
  match tagUuid with
  | none => ⟨prev, false, false⟩
  | some u =>
    match db.get_path (some u) with
    | none => ⟨prev, false, false⟩
    | some _ =>
      if some u ≠ prev then ⟨some u, true, true⟩
      else ⟨prev, false, true⟩

/-- The registry and tag mutations `read_and_assign` / `write_loop` can
perform, in program order. -/
inductive ProvEvent where
  | delete (uuid : String)
  | tagWrite (uuid : String)
  | insert (uuid : String) (path : String)
deriving Repr, DecidableEq

/-- Outcome of one provisioning interaction. -/
inductive ProvOutcome where
  | ok
  | aborted
  | tagWriteFailed
deriving Repr, DecidableEq

/-- The write-and-commit phase of provisioning (src/nfc_player.py lines
519-523): the NDEF write of the freshly minted identifier is issued first;
if it succeeds the registration is committed with `create_entry`, and if
the tag was pulled mid-write the raised `nfc.tag.TagCommandError`
propagates out of the callback to `write_loop`, whose handler (lines
480-483) deletes any registry row for that identifier. -/
def writePhase (newUuid path : String) (writeOk : Bool) : List ProvEvent :=
  if writeOk then
    [ProvEvent.tagWrite newUuid, ProvEvent.insert newUuid path]
  else
    [ProvEvent.tagWrite newUuid, ProvEvent.delete newUuid]

/-- Outcome reported for the write-and-commit phase: on failure the
`write_loop` handler logs the `NDEF write failed` error. -/
def writeOutcome (writeOk : Bool) : ProvOutcome :=
  if writeOk then ProvOutcome.ok else ProvOutcome.tagWriteFailed

/-- Model of one provisioning interaction, `NFCPlayer.read_and_assign`
(lines 486-534) composed with the `TagCommandError` handler of
`write_loop`.  `tagUuid` is the identifier decoded from the tag; if the
registry resolves it to a path the operator is asked to confirm
overwriting: answer no aborts without touching anything, answer yes
deletes the old registration first.  Only then is the fresh identifier
minted, a media path selected (`path`), the tag written and the
registration committed.  Returns the trace of registry/tag mutations in
program order and the reported outcome. -/
def read_and_assign (db : Database) (tagUuid : Option String) (overwriteAns : Bool)
    (newUuid path : String) (writeOk : Bool) : List ProvEvent × ProvOutcome :=
  match tagUuid, db.get_path tagUuid with
  | some old, some _ =>
    if overwriteAns then
      (ProvEvent.delete old :: writePhase newUuid path writeOk, writeOutcome writeOk)
    else
      ([], ProvOutcome.aborted)
  | _, _ =>
    (writePhase newUuid path writeOk, writeOutcome writeOk)

/-- Effect of one provisioning event on the registry; the tag write does
not touch the registry. -/
def applyEvent (db : Database) : ProvEvent → Database
  | ProvEvent.delete u => db.remove_entry u
  | ProvEvent.tagWrite _ => db
  | ProvEvent.insert u p => (db.create_entry u p).1

/-- Registry state after a trace of provisioning events. -/
def applyEvents (db : Database) (evs : List ProvEvent) : Database :=
  evs.foldl applyEvent db

/-- Every registry state a trace of provisioning events passes through,
the initial state included. -/
def dbStates (db : Database) : List ProvEvent → List Database
  | [] => [db]
  | e :: es => db :: dbStates (applyEvent db e) es

/-- If the engine never reports the desired state, the retry loop runs its
full fuel: the action is issued once per remaining iteration. -/
theorem actionTimeoutGo_of_never (states : Nat → VLCState) (desired : VLCState)
    (h : ∀ n, states n ≠ desired) :
    ∀ fuel wait, actionTimeoutGo states desired wait fuel = wait + fuel := by
  intro fuel
  induction fuel with
  | zero => intro wait; rfl
  | succ n ih =>
    intro wait
    show (if states wait = desired then wait else actionTimeoutGo states desired (wait + 1) n) = _
    rw [if_neg (h wait), ih (wait + 1)]
    omega

/-- If the engine never reports the desired state, `__action_timeout`
issues the action exactly `timeoutHalf` times and raises. -/
theorem actionTimeout_of_never (states : Nat → VLCState) (desired : VLCState)
    (timeoutHalf : Nat) (h : ∀ n, states n ≠ desired) :
    actionTimeout states desired timeoutHalf = (timeoutHalf, true) := by
  unfold actionTimeout
  rw [actionTimeoutGo_of_never states desired h timeoutHalf 0]
  simp

/-- Folding list-append over an accumulator appends the folded list. -/
theorem foldl_push_eq_append {α : Type} (l acc : List α) :
    l.foldl (fun a t => a ++ [t]) acc = acc ++ l := by
  induction l generalizing acc with
  | nil => simp
  | cons x xs ih => simp [List.foldl_cons, ih]

/-- A lookup of an identifier with no row returns `None`. -/
theorem get_path_eq_none_of_not_hasRow (db : Database) (u : String) (h : hasRow u db = false) :
    db.get_path (some u) = none := by
  have hf : db.music.find? (fun r => r.uuid == u) = none := by
    rw [List.find?_eq_none]
    intro x hx hbeq
    have hany : db.music.any (fun r => r.uuid == u) = true := List.any_eq_true.mpr ⟨x, hx, hbeq⟩
    rw [hasRow] at h
    rw [h] at hany
    exact Bool.false_ne_true hany
  simp [Database.get_path, hf]

/-- After `remove_entry u` no row for `u` remains. -/
theorem hasRow_remove_entry_self (db : Database) (u : String) :
    hasRow u (db.remove_entry u) = false := by
  rw [hasRow, Database.remove_entry, List.any_eq_false]
  intro x hx
  have hmem := List.mem_filter.mp hx
  simpa using hmem.2

/-- `create_entry` for a different identifier does not affect whether `u`
has a row. -/
theorem hasRow_create_entry_other (db : Database) (u v p : String) (h : v ≠ u) :
    hasRow u (db.create_entry v p).1 = hasRow u db := by
  unfold Database.create_entry
  by_cases hv : validField v = false ∨ validField p = false
  · rw [if_pos hv]
  · rw [if_neg hv]
    simp [hasRow, List.any_append, h]

/-- `remove_entry` of a different identifier does not affect whether `u`
has a row. -/
theorem hasRow_remove_entry_other (db : Database) (u v : String) (h : v ≠ u) :
    hasRow u (db.remove_entry v) = hasRow u db := by
  rw [hasRow, hasRow, Database.remove_entry]
  rcases hu : db.music.any (fun r => r.uuid == u) with _ | _
  · rw [List.any_eq_false] at hu ⊢
    intro x hx
    exact hu x (List.mem_filter.mp hx).1
  · rw [List.any_eq_true] at hu ⊢
    obtain ⟨x, hx, hbeq⟩ := hu
    refine ⟨x, List.mem_filter.mpr ⟨hx, ?_⟩, hbeq⟩
    have hxu : x.uuid = u := by simpa using hbeq
    simp [hxu]
    exact fun hh => h hh.symm

/-- An identifier with zero rows is not found by `find?`. -/
theorem find?_eq_none_of_rowCount_zero (db : Database) (u : String) (h : rowCount u db = 0) :
    db.music.find? (fun r => r.uuid == u) = none := by
  rw [List.find?_eq_none]
  intro x hx hbeq
  rw [rowCount, List.length_eq_zero] at h
  have hm : x ∈ db.music.filter (fun r => r.uuid == u) := List.mem_filter.mpr ⟨hx, hbeq⟩
  rw [h] at hm
  exact absurd hm (List.not_mem_nil x)

/-- C5 counterexample: inserting a blank identifier is rejected silently —
the value returned to the caller is not `InvalidEntry`; it is exactly the
value a successful insert returns (Python `None`), so callers cannot branch
on cause. -/
theorem c5_counterexample :
    ((⟨[]⟩ : Database).create_entry "" "/music").2 ≠ some DBError.InvalidEntry ∧
    ((⟨[]⟩ : Database).create_entry "" "/music").2 =
      ((⟨[]⟩ : Database).create_entry "NFCMP_a" "/music").2 := by
  decide

/-- C5 (amended): for every `insert(id, path)` where id or path is empty or
whitespace-only, no row is created — the registry is returned unchanged —
but the operation does not fail with a distinguishable `InvalidEntry`
error kind: it logs and returns `None`, indistinguishable from success. -/
theorem c5_blank_insert_no_row (db : Database) (u p : String)
    (h : validField u = false ∨ validField p = false) :
    db.create_entry u p = (db, none) := by
  rw [Database.create_entry, if_pos h]

/-- Witness for C5 (amended) at a concrete blank identifier. -/
theorem c5_blank_insert_no_row_witness :
    (⟨[]⟩ : Database).create_entry " " "/music" = (⟨[]⟩, none) :=
  c5_blank_insert_no_row ⟨[]⟩ " " "/music" (Or.inl (by decide))

/-- C6 counterexample: the two-operation sequence `insert("a", "/p");
insert("a", "/q")` leaves two rows with identifier `"a"` in the store, so
the registry does not maintain at-most-one-row-per-identifier. -/
theorem c6_counterexample :
    rowCount "a" ((((⟨[]⟩ : Database).create_entry "a" "/p").1.create_entry "a" "/q").1) = 2 := by
  decide

/-- C6 (amended): the registry itself does not enforce uniqueness — `insert`
performs no existence check, so inserting an identifier that already has a
row always adds one more row for it — while `delete` removes every row for
the identifier, leaving zero.  At-most-one-row-per-identifier therefore
rests on provisioning always minting a fresh identifier, not on the
registry operations. -/
theorem c6_no_uniqueness_enforcement (db : Database) (u p : String)
    (hu : validField u = true) (hp : validField p = true) :
    rowCount u (db.create_entry u p).1 = rowCount u db + 1 ∧
    rowCount u (db.remove_entry u) = 0 := by
  constructor
  · rw [Database.create_entry, if_neg (by simp [hu, hp])]
    simp [rowCount, List.filter_append]
  · rw [rowCount, Database.remove_entry, List.length_eq_zero]
    simp [List.filter_filter]

/-- Witness for C6 (amended) at a concrete duplicate insert. -/
theorem c6_no_uniqueness_enforcement_witness :
    rowCount "a" ((⟨[⟨"a", "/p"⟩]⟩ : Database).create_entry "a" "/q").1 =
        rowCount "a" (⟨[⟨"a", "/p"⟩]⟩ : Database) + 1 ∧
    rowCount "a" ((⟨[⟨"a", "/p"⟩]⟩ : Database).remove_entry "a") = 0 :=
  c6_no_uniqueness_enforcement ⟨[⟨"a", "/p"⟩]⟩ "a" "/q" (by decide) (by decide)

/-- C7 counterexample: when the identifier already has a row, a second
accepted `insert("a", "/q")` (it does add a row) is not returned by a
subsequent lookup — `get_path` still returns the first row's `"/p"`, not
the normalized `"/q"`. -/
theorem c7_counterexample :
    rowCount "a" (((⟨[⟨"a", "/p"⟩]⟩ : Database).create_entry "a" "/q").1) = 2 ∧
    (((⟨[⟨"a", "/p"⟩]⟩ : Database).create_entry "a" "/q").1).get_path (some "a") ≠
      some (posixNormpath "/q") := by
  decide

/-- C7 (amended): for every `(id, path)` accepted by `insert` into a
registry holding no row for `id`, a subsequent `lookup(id)` returns exactly
`path` normalized by `os.path.normpath`; and every identifier with no row
in the registry looks up to `NotFound` (`None`). -/
theorem c7_roundtrip_fresh (db : Database) (u p : String)
    (hu : validField u = true) (hp : validField p = true) (hfresh : rowCount u db = 0) :
    (db.create_entry u p).1.get_path (some u) = some (posixNormpath p) ∧
    ∀ j : String, rowCount j db = 0 → db.get_path (some j) = none := by
  constructor
  · rw [Database.create_entry, if_neg (by simp [hu, hp])]
    have hn := find?_eq_none_of_rowCount_zero db u hfresh
    simp [Database.get_path, List.find?_append, hn, List.find?_cons]
  · intro j hj
    have hf := find?_eq_none_of_rowCount_zero db j hj
    simp [Database.get_path, hf]

/-- Witness for C7 (amended) at a concrete fresh insert whose path is not
already normalized. -/
theorem c7_roundtrip_fresh_witness :
    ((⟨[]⟩ : Database).create_entry "NFCMP_a" "/m//x/").1.get_path (some "NFCMP_a") =
      some (posixNormpath "/m//x/") :=
  (c7_roundtrip_fresh ⟨[]⟩ "NFCMP_a" "/m//x/" (by decide) (by decide) (by decide)).1

/-- C8: `add_track_mrls` (the engine playlist replacement) fully tears down
the previous list and rebuilds it, so afterwards the engine playlist is
exactly the given tracks in the given order, whatever it contained
before. -/
theorem c8_replace_playlist_exact (mediaList tracks : List String) :
    add_track_mrls mediaList tracks = tracks := by
  rw [add_track_mrls, foldl_push_eq_append]
  rfl

/-- C10: calling `VLC.play` with an empty playlist issues no engine
command, raises nothing to the caller, and returns after logging that
there is no media in the playlist. -/
theorem c10_play_empty_playlist (states : Nat → VLCState) :
    VLC.play [] states = ⟨[], [LogMsg.noMediaInPlaylist], false⟩ :=
  rfl

/-- C9: when the media path is a single existing file,
`add_media_to_playlist` passes the bare path string to `add_track_mrls`,
which iterates over it, so the rebuilt playlist holds one one-character
media entry per character of the path string — its length is the length of
the path — and (for any path of at least two characters) not a single
entry for the file. -/
theorem c9_single_file_iterates_chars (isFile : String → Bool)
    (listDir : String → List String) (isAudio : String → Bool)
    (mediaList : List String) (d : String) (h : isFile d = true) :
    add_media_to_playlist isFile listDir isAudio mediaList d = pyStrIter d ∧
    (add_media_to_playlist isFile listDir isAudio mediaList d).length = d.length ∧
    (2 ≤ d.length → add_media_to_playlist isFile listDir isAudio mediaList d ≠ [d]) := by
  have he : add_media_to_playlist isFile listDir isAudio mediaList d = pyStrIter d := by
    rw [add_media_to_playlist, if_pos h, add_track_mrls, foldl_push_eq_append]
    rfl
  have hlen : (pyStrIter d).length = d.length := by
    rw [pyStrIter, List.length_map]
    rfl
  refine ⟨he, by rw [he, hlen], ?_⟩
  intro h2 hcontra
  rw [he] at hcontra
  have h1 : (pyStrIter d).length = 1 := by rw [hcontra]; rfl
  rw [hlen] at h1
  omega

/-- Witness for C9 at a concrete single-file path. -/
theorem c9_single_file_iterates_chars_witness :
    add_media_to_playlist (fun s => s == "/m/a.mp3") (fun _ => []) (fun _ => false)
      [] "/m/a.mp3" = pyStrIter "/m/a.mp3" :=
  (c9_single_file_iterates_chars (fun s => s == "/m/a.mp3") (fun _ => []) (fun _ => false)
    [] "/m/a.mp3" (by decide)).1

/-- C3: for each state-changing call (`play` towards `Playing`, `pause`
towards `Paused`, `stop` towards `Stopped`) whose desired engine state is
never reached by any poll, the command is issued exactly 6 times (the
0.5 time-unit polls up to the 3 time-unit ceiling), the timeout exception
is raised and caught, a failure warning is logged, the `MediaPlayer` is
hard-stopped as the safety fallback, and no exception escapes to the
surrounding loop. -/
theorem c3_retry_ceiling (states : Nat → VLCState) (mediaList : List String)
    (hml : mediaList ≠ [])
    (hplay : ∀ n, states n ≠ VLCState.Playing)
    (hpause : ∀ n, states n ≠ VLCState.Paused)
    (hstop : ∀ n, states n ≠ VLCState.Stopped) :
    actionTimeout states VLCState.Playing timeoutHalfUnits = (6, true) ∧
    VLC.play mediaList states =
      ⟨List.replicate 6 EngineCmd.listPlay ++ [EngineCmd.playerStop], [LogMsg.failedToPlay], false⟩ ∧
    VLC.pause VLCState.Playing states =
      ⟨List.replicate 6 EngineCmd.listPause ++ [EngineCmd.playerStop], [LogMsg.failedToPause], false⟩ ∧
    VLC.stop states =
      ⟨List.replicate 6 EngineCmd.listStop ++ [EngineCmd.playerStop], [LogMsg.failedToStop], false⟩ := by
  have h1 := actionTimeout_of_never states VLCState.Playing timeoutHalfUnits hplay
  have h2 := actionTimeout_of_never states VLCState.Paused timeoutHalfUnits hpause
  have h3 := actionTimeout_of_never states VLCState.Stopped timeoutHalfUnits hstop
  have hml6 : 0 < mediaList.length := List.length_pos.mpr hml
  refine ⟨h1, ?_, ?_, ?_⟩
  · rw [VLC.play, if_pos hml6, h1]
    rfl
  · rw [VLC.pause, if_pos rfl, h2]
    rfl
  · rw [VLC.stop, h3]
    rfl

/-- Witness for C3: an engine stuck in `NothingSpecial` times out `play`
after exactly 6 attempts and is hard-stopped. -/
theorem c3_retry_ceiling_witness :
    VLC.play ["/m/a.mp3"] (fun _ => VLCState.NothingSpecial) =
      ⟨List.replicate 6 EngineCmd.listPlay ++ [EngineCmd.playerStop], [LogMsg.failedToPlay], false⟩ :=
  (c3_retry_ceiling (fun _ => VLCState.NothingSpecial) ["/m/a.mp3"] (by decide)
    (by intro n; simp) (by intro n; simp) (by intro n; simp)).2.1

/-- C4: in standby mode, given a tag whose identifier resolves to a
registered path, the playlist is rebuilt exactly when the identifier
differs from the one the current session was built for (`prev_uuid`), and
after the first read `prev_uuid` equals the identifier, so a second
consecutive read of the same identifier does not rebuild and still issues
`play()`. -/
theorem c4_session_debounce (db : Database) (prev : Option String) (u : String)
    (hpath : db.get_path (some u) ≠ none) :
    ((read_and_play db prev (some u)).rebuilt = true ↔ some u ≠ prev) ∧
    (read_and_play db prev (some u)).prev_uuid = some u ∧
    (read_and_play db (read_and_play db prev (some u)).prev_uuid (some u)).rebuilt = false ∧
    (read_and_play db (read_and_play db prev (some u)).prev_uuid (some u)).playIssued = true := by
  obtain ⟨q, hq⟩ : ∃ q, db.get_path (some u) = some q := by
    cases h : db.get_path (some u) with
    | none => exact absurd h hpath
    | some q => exact ⟨q, rfl⟩
  rcases eq_or_ne (some u) prev with heq | hne
  · subst heq
    simp [read_and_play, hq]
  · simp [read_and_play, hq, hne]

/-- Witness for C4 at a concrete registered tag read twice from the
initial sentinel state. -/
theorem c4_session_debounce_witness :
    (read_and_play ⟨[⟨"X", "/m"⟩]⟩ none (some "X")).prev_uuid = some "X" ∧
    (read_and_play ⟨[⟨"X", "/m"⟩]⟩
      (read_and_play ⟨[⟨"X", "/m"⟩]⟩ none (some "X")).prev_uuid (some "X")).rebuilt = false :=
  ⟨(c4_session_debounce ⟨[⟨"X", "/m"⟩]⟩ none "X" (by decide)).2.1,
   (c4_session_debounce ⟨[⟨"X", "/m"⟩]⟩ none "X" (by decide)).2.2.1⟩

/-- C1: whenever the provisioning interaction issues the NDEF write of the
freshly minted identifier and the write fails because the tag was pulled,
the reported outcome is the write failure, no registry insert for that
identifier ever happened in the trace, and after the `write_loop` handler
runs the registry holds no row for the identifier; moreover the successful
variant of the phase issues the tag write strictly before the registry
commit. -/
theorem c1_write_failure_rollback (db : Database) (tagUuid : Option String)
    (overwriteAns : Bool) (u p : String)
    (hreached : ProvEvent.tagWrite u ∈ (read_and_assign db tagUuid overwriteAns u p false).1) :
    (read_and_assign db tagUuid overwriteAns u p false).2 = ProvOutcome.tagWriteFailed ∧
    (∀ q : String, ProvEvent.insert u q ∉ (read_and_assign db tagUuid overwriteAns u p false).1) ∧
    hasRow u (applyEvents db (read_and_assign db tagUuid overwriteAns u p false).1) = false ∧
    writePhase u p true = [ProvEvent.tagWrite u, ProvEvent.insert u p] := by
  cases tagUuid with
  | none =>
    refine ⟨rfl, ?_, ?_, rfl⟩
    · intro q
      simp [read_and_assign, writePhase]
    · exact hasRow_remove_entry_self db u
  | some old =>
    cases hgp : db.get_path (some old) with
    | none =>
      refine ⟨?_, ?_, ?_, rfl⟩
      · simp [read_and_assign, hgp, writeOutcome]
      · intro q
        simp [read_and_assign, hgp, writePhase]
      · simp only [read_and_assign, hgp]
        exact hasRow_remove_entry_self db u
    | some q0 =>
      cases overwriteAns with
      | false =>
        simp [read_and_assign, hgp] at hreached
      | true =>
        refine ⟨?_, ?_, ?_, rfl⟩
        · simp [read_and_assign, hgp, writeOutcome]
        · intro q
          simp [read_and_assign, hgp, writePhase]
        · simp only [read_and_assign, hgp]
          show hasRow u ((db.remove_entry old).remove_entry u) = false
          exact hasRow_remove_entry_self _ u

/-- Witness for C1: provisioning a blank tag over an empty registry with a
failing NDEF write reports the failure. -/
theorem c1_write_failure_rollback_witness :
    (read_and_assign ⟨[]⟩ none true "NFCMP_1" "/m" false).2 = ProvOutcome.tagWriteFailed ∧
    hasRow "NFCMP_1" (applyEvents ⟨[]⟩ (read_and_assign ⟨[]⟩ none true "NFCMP_1" "/m" false).1) =
      false :=
  ⟨(c1_write_failure_rollback ⟨[]⟩ none true "NFCMP_1" "/m" (by decide)).1,
   (c1_write_failure_rollback ⟨[]⟩ none true "NFCMP_1" "/m" (by decide)).2.2.1⟩

/-- C2: confirming overwrite of an existing registration produces the
trace delete-old, write-tag, insert-new in exactly that order, and over
every intermediate registry state (initial state included) the old and the
freshly minted identifier never both have a row, and the new identifier is
never visible via lookup while the old row still exists. -/
theorem c2_overwrite_delete_before_insert (db : Database) (old newU p : String)
    (hne : newU ≠ old)
    (hfresh : hasRow newU db = false)
    (hex : db.get_path (some old) ≠ none) :
    (read_and_assign db (some old) true newU p true).1 =
      [ProvEvent.delete old, ProvEvent.tagWrite newU, ProvEvent.insert newU p] ∧
    (∀ s ∈ dbStates db (read_and_assign db (some old) true newU p true).1,
        ¬(hasRow old s = true ∧ hasRow newU s = true)) ∧
    (∀ s ∈ dbStates db (read_and_assign db (some old) true newU p true).1,
        s.get_path (some newU) ≠ none → s.get_path (some old) = none) := by
  obtain ⟨q0, hq⟩ : ∃ q0, db.get_path (some old) = some q0 := by
    cases h : db.get_path (some old) with
    | none => exact absurd h hex
    | some q0 => exact ⟨q0, rfl⟩
  have hevs : (read_and_assign db (some old) true newU p true).1 =
      [ProvEvent.delete old, ProvEvent.tagWrite newU, ProvEvent.insert newU p] := by
    simp [read_and_assign, hq, writePhase]
  have hstates : dbStates db (read_and_assign db (some old) true newU p true).1 =
      [db, db.remove_entry old, db.remove_entry old,
        ((db.remove_entry old).create_entry newU p).1] := by
    rw [hevs]
    rfl
  have hOld1 : hasRow old (db.remove_entry old) = false := hasRow_remove_entry_self db old
  have hOld2 : hasRow old ((db.remove_entry old).create_entry newU p).1 = false := by
    rw [hasRow_create_entry_other _ _ _ _ hne]
    exact hOld1
  refine ⟨hevs, ?_, ?_⟩
  · intro s hs
    rw [hstates] at hs
    simp only [List.mem_cons, List.not_mem_nil, or_false] at hs
    rcases hs with rfl | rfl | rfl | rfl
    · intro hc
      simp [hfresh] at hc
    · intro hc
      simp [hOld1] at hc
    · intro hc
      simp [hOld1] at hc
    · intro hc
      simp [hOld2] at hc
  · intro s hs
    rw [hstates] at hs
    simp only [List.mem_cons, List.not_mem_nil, or_false] at hs
    rcases hs with rfl | rfl | rfl | rfl
    · intro h
      exact absurd (get_path_eq_none_of_not_hasRow _ newU hfresh) h
    · intro h
      exact get_path_eq_none_of_not_hasRow _ old hOld1
    · intro h
      exact get_path_eq_none_of_not_hasRow _ old hOld1
    · intro h
      exact get_path_eq_none_of_not_hasRow _ old hOld2

/-- Witness for C2: a concrete overwrite run produces exactly the
delete-before-insert trace. -/
theorem c2_overwrite_delete_before_insert_witness :
    (read_and_assign ⟨[⟨"OLD", "/a"⟩]⟩ (some "OLD") true "NFCMP_1" "/b" true).1 =
      [ProvEvent.delete "OLD", ProvEvent.tagWrite "NFCMP_1", ProvEvent.insert "NFCMP_1" "/b"] :=
  (c2_overwrite_delete_before_insert ⟨[⟨"OLD", "/a"⟩]⟩ "OLD" "NFCMP_1" "/b"
    (by decide) (by decide) (by decide)).1
